import Mathlib

set_option maxHeartbeats 1000000

/-!
Shallow embedding of the pyvgk repository (src/VGKConfiguration.py and
src/pyvgk.py). Python runtime values are modelled by the inductive PyVal.
Every float literal in the source and in the claims is an exact decimal, so
Python floats are modelled by exact decimal numbers (an integer mantissa
with a power-of-ten denominator); comparisons are computed by cross
multiplication and proved equivalent to comparisons of the rational values.
A missing attribute is PyErr.attributeError, and each property setter of
VGKConfiguration becomes a function from the object state and the assigned
value to the new object state together with the optionally raised
exception. Comparing a number with None raises PyErr.typeError, exactly as
the Python comparison operator does.
-/

/-- Exact decimal number mant / 10 ^ exp, the model of a Python float. -/
structure PyFloat where
  mant : Int
  exp : Nat
  deriving DecidableEq

/-- Rational value of an exact decimal, used to state specifications. -/
def PyFloat.toRat (d : PyFloat) : ℚ := (d.mant : ℚ) / 10 ^ d.exp

/-- Order on exact decimals by cross multiplication. -/
def PyFloat.le (a b : PyFloat) : Bool :=
  decide (a.mant * 10 ^ b.exp ≤ b.mant * 10 ^ a.exp)

/-- Strict order on exact decimals by cross multiplication. -/
def PyFloat.lt (a b : PyFloat) : Bool :=
  decide (a.mant * 10 ^ b.exp < b.mant * 10 ^ a.exp)

/-- Exact division of a decimal by 10 ^ k, the only float division the
source performs (reynolds / 1e6). -/
def PyFloat.divPow10 (d : PyFloat) (k : Nat) : PyFloat :=
  { mant := d.mant, exp := d.exp + k }

inductive PyVal where
  | none
  | bool (b : Bool)
  | int (n : Int)
  | float (d : PyFloat)
  | str (s : String)
  deriving DecidableEq

inductive PyErr where
  | valueError (msg : String)
  | typeError
  | nameError (n : String)
  | attributeError (n : String)
  deriving DecidableEq

/-- Python truthiness of a value, as used by if-statements in the source. -/
def PyVal.truthy : PyVal → Bool
  | PyVal.none => false
  | PyVal.bool b => b
  | PyVal.int n => decide (n ≠ 0)
  | PyVal.float d => decide (d.mant ≠ 0)
  | PyVal.str s => decide (s ≠ "")

/-- Numeric view of a Python value; bool counts as 0 or 1 as in Python. -/
def pyNum : PyVal → Option PyFloat
  | PyVal.int n => some { mant := n, exp := 0 }
  | PyVal.float d => some d
  | PyVal.bool b => some { mant := if b then 1 else 0, exp := 0 }
  | _ => Option.none

/-- Python a <= b; raises TypeError when either side is not a number. -/
def pyLE (a b : PyVal) : Except PyErr Bool :=
  match pyNum a, pyNum b with
  | some x, some y => Except.ok (PyFloat.le x y)
  | _, _ => Except.error PyErr.typeError

/-- Python a < b; raises TypeError when either side is not a number. -/
def pyLT (a b : PyVal) : Except PyErr Bool :=
  match pyNum a, pyNum b with
  | some x, some y => Except.ok (PyFloat.lt x y)
  | _, _ => Except.error PyErr.typeError

/-- Python chained comparison a <= b <= c with short-circuit evaluation. -/
def pyChainLE (a b c : PyVal) : Except PyErr Bool := do
  let r ← pyLE a b
  if r then pyLE b c else pure false

/-- Python chained comparison a < b <= c with short-circuit evaluation. -/
def pyChainLTLE (a b c : PyVal) : Except PyErr Bool := do
  let r ← pyLT a b
  if r then pyLE b c else pure false

/-- Python isinstance(v, int); True for bool as well, since bool subclasses int. -/
def PyVal.isInstInt : PyVal → Bool
  | PyVal.int _ => true
  | PyVal.bool _ => true
  | _ => false

/-- Removal of trailing decimal zeros: repeatedly divides the mantissa by
ten while the exponent is positive and the mantissa is divisible by ten. -/
def stripZeros : Int → Nat → Int × Nat
  | m, 0 => (m, 0)
  | m, e + 1 => if m % 10 = 0 then stripZeros (m / 10) e else (m, e + 1)

/-- Rendering of a Python float whose value is an exact finite decimal, as
produced by str(): the shortest decimal digit string, with a trailing .0 on
integral values. -/
def pyFloatRepr (d : PyFloat) : String :=
  let p := stripZeros d.mant d.exp
  let m := p.1
  let k := p.2
  if k = 0 then
    toString m ++ ".0"
  else
    let sign : String := if m < 0 then "-" else ""
    let ds : String := toString m.natAbs
    let ds : String :=
      if ds.length < k + 1 then
        String.mk (List.replicate (k + 1 - ds.length) '0') ++ ds
      else ds
    sign ++ ds.take (ds.length - k) ++ "." ++ ds.drop (ds.length - k)

/-- Python str() of a value, the function mapped over the args list by the
join in VGKConfiguration.__str__. -/
def PyVal.pyStr : PyVal → String
  | PyVal.none => "None"
  | PyVal.bool b => if b then "True" else "False"
  | PyVal.int n => toString n
  | PyVal.float d => pyFloatRepr d
  | PyVal.str s => s

/-- ASCII alphanumeric, the character class [a-zA-Z0-9]. -/
def isAlnumAscii (c : Char) : Bool :=
  (decide ('a' ≤ c) && decide (c ≤ 'z')) ||
  (decide ('A' ≤ c) && decide (c ≤ 'Z')) ||
  (decide ('0' ≤ c) && decide (c ≤ '9'))

/-- Body of the anchored filename pattern: one to eight alphanumerics. -/
def filenameCore (l : List Char) : Bool :=
  decide (1 ≤ l.length) && decide (l.length ≤ 8) && l.all isAlnumAscii

/-- Truthiness of re.match with the anchored pattern of the filename setter;
the trailing dollar also matches just before one final newline. -/
def reMatchFilename (s : String) : Bool :=
  filenameCore s.data ||
    (match s.data.getLast? with
     | some c => (c == '\n') && filenameCore s.data.dropLast
     | Option.none => false)

/-- Body of the anchored datfile pattern: a one to eight character
alphanumeric stem followed by the literal suffix .dat. -/
def datfileCore (l : List Char) : Bool :=
  decide (5 ≤ l.length) && decide (l.length ≤ 12) &&
  (l.take (l.length - 4)).all isAlnumAscii &&
  decide (l.drop (l.length - 4) = ['.', 'd', 'a', 't'])

/-- Truthiness of re.match with the anchored pattern of the datfile setter. -/
def reMatchDatfile (s : String) : Bool :=
  datfileCore s.data ||
    (match s.data.getLast? with
     | some c => (c == '\n') && datfileCore s.data.dropLast
     | Option.none => false)

/-- Character class of the continuation pattern: alphanumeric, hyphen or
underscore; the hyphen after the 0-9 range is literal in Python. -/
def contChar (c : Char) : Bool := isAlnumAscii c || c == '-' || c == '_'

/-- Truthiness of re.match with the continuation pattern of the source. The
quantifier text in the source contains a space, so Python treats those six
characters as literals: the pattern matches one class character followed by
the literal text consisting of an opening brace, 1, a comma, a space, 8 and
a closing brace, at the start of the string (re.match does not anchor the
end). -/
def reMatchContinuation (s : String) : Bool :=
  match s.data with
  | [] => false
  | c :: rest =>
    contChar c && decide (rest.take 6 = ['\x7b', '1', ',', ' ', '8', '\x7d'])

/-!
Object state of a VGKConfiguration instance. Each field is one instance
attribute that the source reads or writes; an attribute that has never been
assigned is Option.none and reading it raises AttributeError. The setters
of the source store under the names with a leading underscore; __init__
additionally assigns self.coarse_relaxation, self.fine_relaxation,
self.under_relaxation and self.over_relaxation, names for which no setter
exists, so those assignments create the plain attributes of the same name
and the underscore attributes that __str__ reads stay missing.
-/

structure VGKState where
  _filename : Option PyVal := Option.none
  _title : Option PyVal := Option.none
  _viscous : Option PyVal := Option.none
  _datfile : Option PyVal := Option.none
  _mach : Option PyVal := Option.none
  _incidence : Option PyVal := Option.none
  _reynolds : Option PyVal := Option.none
  _xtu : Option PyVal := Option.none
  _xtl : Option PyVal := Option.none
  _continuation : Option PyVal := Option.none
  _output_tos : Option PyVal := Option.none
  _output_griddata : Option PyVal := Option.none
  _output_binarydump : Option PyVal := Option.none
  _lift : Option PyVal := Option.none
  _user_defined_lift : Option PyVal := Option.none
  _change_defaults : Option PyVal := Option.none
  _finemesh_gridlines : Option PyVal := Option.none
  _coarsemesh_iterations : Option PyVal := Option.none
  _finemesh_iterations : Option PyVal := Option.none
  _overrelaxation : Option PyVal := Option.none
  _underrelaxation : Option PyVal := Option.none
  _coarse_relaxation_factor : Option PyVal := Option.none
  _fine_relaxation_factor : Option PyVal := Option.none
  _niterations_coarse_inviscid_flow : Option PyVal := Option.none
  _niterations_fine_inviscid_flow : Option PyVal := Option.none
  _dd21 : Option PyVal := Option.none
  _dd22 : Option PyVal := Option.none
  _artificial_viscosity : Option PyVal := Option.none
  _partially_conservative : Option PyVal := Option.none
  _over_relaxation : Option PyVal := Option.none
  _under_relaxation : Option PyVal := Option.none
  _coarse_relaxation : Option PyVal := Option.none
  _fine_relaxation : Option PyVal := Option.none
  _niterations_inviscid_flow : Option PyVal := Option.none
  over_relaxation : Option PyVal := Option.none
  under_relaxation : Option PyVal := Option.none
  coarse_relaxation : Option PyVal := Option.none
  fine_relaxation : Option PyVal := Option.none
  deriving DecidableEq

/-- Attribute read: AttributeError when the attribute was never assigned. -/
def getattr1 (v : Option PyVal) (attr : String) : Except PyErr PyVal :=
  match v with
  | some x => Except.ok x
  | Option.none => Except.error (PyErr.attributeError attr)

/-- Setter for filename: anchored alphanumeric pattern of length 1 to 8. -/
def set_filename (s : VGKState) (filename : PyVal) : VGKState × Option PyErr :=
  match filename with
  | PyVal.str v =>
    if reMatchFilename v then
      ({ s with _filename := some (PyVal.str v) }, Option.none)
    else
      (s, some (PyErr.valueError ("Filename must only contain alphanumeric characters and not be longer than 8 characters, but " ++ v ++ " given.")))
  | _ => (s, some PyErr.typeError)

/-- Setter for title: length at most 68 characters. -/
def set_title (s : VGKState) (title : PyVal) : VGKState × Option PyErr :=
  match title with
  | PyVal.str v =>
    if decide (v.length ≤ 68) then
      ({ s with _title := some (PyVal.str v) }, Option.none)
    else
      (s, some (PyErr.valueError ("Title must not be longer than 68 characters, but " ++ v ++ " (" ++ toString v.length ++ ") given.")))
  | _ => (s, some PyErr.typeError)

/-- Setter for datfile: alphanumeric stem of length 1 to 8 plus the literal
suffix .dat. -/
def set_datfile (s : VGKState) (datfile : PyVal) : VGKState × Option PyErr :=
  match datfile with
  | PyVal.str v =>
    if reMatchDatfile v then
      ({ s with _datfile := some (PyVal.str v) }, Option.none)
    else
      (s, some (PyErr.valueError ("Design filename must contain the `.dat` extension and not be longer than 8 characters (before the dot), but " ++ v ++ " given.")))
  | _ => (s, some PyErr.typeError)

/-- Setter for incidence: the chained comparison -20 <= incidence <= 20. -/
def set_incidence (s : VGKState) (incidence : PyVal) : VGKState × Option PyErr :=
  match pyChainLE (PyVal.int (-20)) incidence (PyVal.int 20) with
  | Except.error e => (s, some e)
  | Except.ok true => ({ s with _incidence := some incidence }, Option.none)
  | Except.ok false =>
    (s, some (PyErr.valueError ("Angle of incidence must be in [-20, 20], but " ++ incidence.pyStr ++ " given.")))

/-- Setter for mach: the chained comparison 0.05 <= mach <= 0.95. -/
def set_mach (s : VGKState) (mach : PyVal) : VGKState × Option PyErr :=
  match pyChainLE (PyVal.float { mant := 5, exp := 2 }) mach (PyVal.float { mant := 95, exp := 2 }) with
  | Except.error e => (s, some e)
  | Except.ok true => ({ s with _mach := some mach }, Option.none)
  | Except.ok false =>
    (s, some (PyErr.valueError ("Mach number must be in the range [0.05, 0.95], but " ++ mach.pyStr ++ " given.")))

/-- Setter for lift: None clears the user defined lift flag, otherwise the
chained comparison 0 <= lift <= 1 guards acceptance; acceptance sets the
user defined lift flag. -/
def set_lift (s : VGKState) (lift : PyVal) : VGKState × Option PyErr :=
  if lift = PyVal.none then
    ({ s with _user_defined_lift := some (PyVal.bool false), _lift := some PyVal.none }, Option.none)
  else
    match pyChainLE (PyVal.int 0) lift (PyVal.int 1) with
    | Except.error e => (s, some e)
    | Except.ok true =>
      ({ s with _user_defined_lift := some (PyVal.bool true), _lift := some lift }, Option.none)
    | Except.ok false =>
      (s, some (PyErr.valueError ("Coefficient of lift must be in [0, 1], but " ++ lift.pyStr ++ " given.")))

/-- Setter for reynolds: accepted when 1e5 <= reynolds, and the stored value
is the input divided by one million (an exact division by 10 ^ 6). -/
def set_reynolds (s : VGKState) (reynolds : PyVal) : VGKState × Option PyErr :=
  match pyLE (PyVal.float { mant := 100000, exp := 0 }) reynolds with
  | Except.error e => (s, some e)
  | Except.ok true =>
    match pyNum reynolds with
    | some d => ({ s with _reynolds := some (PyVal.float (d.divPow10 6)) }, Option.none)
    | Option.none => (s, some PyErr.typeError)
  | Except.ok false =>
    (s, some (PyErr.valueError ("Reynold\x27s number must be greater than 1e5, but " ++ reynolds.pyStr ++ " given.")))

/-- Setter for xtu: the chained comparison 0.01 <= xtu <= 1. -/
def set_xtu (s : VGKState) (xtu : PyVal) : VGKState × Option PyErr :=
  match pyChainLE (PyVal.float { mant := 1, exp := 2 }) xtu (PyVal.int 1) with
  | Except.error e => (s, some e)
  | Except.ok true => ({ s with _xtu := some xtu }, Option.none)
  | Except.ok false =>
    (s, some (PyErr.valueError ("Upper-surface transition layer must be in [0.01, 1.00], but " ++ xtu.pyStr ++ " given")))

/-- Setter for xtl: the chained comparison 0.01 <= xtl <= 1. -/
def set_xtl (s : VGKState) (xtl : PyVal) : VGKState × Option PyErr :=
  match pyChainLE (PyVal.float { mant := 1, exp := 2 }) xtl (PyVal.int 1) with
  | Except.error e => (s, some e)
  | Except.ok true => ({ s with _xtl := some xtl }, Option.none)
  | Except.ok false =>
    (s, some (PyErr.valueError ("Lower-surface transition layer must be in [0.01, 1.00], but " ++ xtl.pyStr ++ " given.")))

/-- Setter for continuation: None stores the Python bool False; a string is
checked against the continuation pattern and stored unchanged. -/
def set_continuation (s : VGKState) (binarydump : PyVal) : VGKState × Option PyErr :=
  if binarydump = PyVal.none then
    ({ s with _continuation := some (PyVal.bool false) }, Option.none)
  else
    match binarydump with
    | PyVal.str v =>
      if reMatchContinuation v then
        ({ s with _continuation := some (PyVal.str v) }, Option.none)
      else
        (s, some (PyErr.valueError ("Binary dump must not be longer than 8 characters and must only contain alphanumeric characters, -, and _, but " ++ v ++ " given.")))
    | _ => (s, some PyErr.typeError)

/-- Setter for viscous: truthiness selects the token 1 or 0. -/
def set_viscous (s : VGKState) (viscous : PyVal) : VGKState :=
  if viscous.truthy then { s with _viscous := some (PyVal.str "1") }
  else { s with _viscous := some (PyVal.str "0") }

/-- Setter for output_griddata: truthiness selects the token yes or no. -/
def set_output_griddata (s : VGKState) (output : PyVal) : VGKState :=
  if output.truthy then { s with _output_griddata := some (PyVal.str "yes") }
  else { s with _output_griddata := some (PyVal.str "no") }

/-- Setter for output_tos: truthiness selects the token yes or no. -/
def set_output_tos (s : VGKState) (output : PyVal) : VGKState :=
  if output.truthy then { s with _output_tos := some (PyVal.str "yes") }
  else { s with _output_tos := some (PyVal.str "no") }

/-- Setter for output_binarydump: truthiness selects the token yes or no. -/
def set_output_binarydump (s : VGKState) (output : PyVal) : VGKState :=
  if output.truthy then { s with _output_binarydump := some (PyVal.str "yes") }
  else { s with _output_binarydump := some (PyVal.str "no") }

/-- Setter for finemesh_gridlines: None stores the sentinel d (if branch),
otherwise an elif guards 96 <= value <= 169 and isinstance(value, int);
acceptance also sets the change defaults flag to True. -/
def set_finemesh_gridlines (s : VGKState) (value : PyVal) : VGKState × Option PyErr :=
  if value = PyVal.none then
    ({ s with _finemesh_gridlines := some (PyVal.str "d") }, Option.none)
  else
    match pyChainLE (PyVal.int 96) value (PyVal.int 169) with
    | Except.error e => (s, some e)
    | Except.ok r =>
      if r && value.isInstInt then
        ({ s with _change_defaults := some (PyVal.bool true), _finemesh_gridlines := some value }, Option.none)
      else
        (s, some (PyErr.valueError "Number of fine-mesh gridlines must be in the range 96, 97, ..., 160."))

/-- Setter for coarsemesh_iterations: None stores d, elif guards
0 < value and isinstance(value, int). -/
def set_coarsemesh_iterations (s : VGKState) (value : PyVal) : VGKState × Option PyErr :=
  if value = PyVal.none then
    ({ s with _coarsemesh_iterations := some (PyVal.str "d") }, Option.none)
  else
    match pyLT (PyVal.int 0) value with
    | Except.error e => (s, some e)
    | Except.ok r =>
      if r && value.isInstInt then
        ({ s with _change_defaults := some (PyVal.bool true), _coarsemesh_iterations := some value }, Option.none)
      else
        (s, some (PyErr.valueError "Number of coarse-mesh iterations must be > 0."))

/-- Setter for finemesh_iterations: None stores d, elif guards
0 < value and isinstance(value, int). -/
def set_finemesh_iterations (s : VGKState) (value : PyVal) : VGKState × Option PyErr :=
  if value = PyVal.none then
    ({ s with _finemesh_iterations := some (PyVal.str "d") }, Option.none)
  else
    match pyLT (PyVal.int 0) value with
    | Except.error e => (s, some e)
    | Except.ok r =>
      if r && value.isInstInt then
        ({ s with _change_defaults := some (PyVal.bool true), _finemesh_iterations := some value }, Option.none)
      else
        (s, some (PyErr.valueError "Number of fine-mesh iterations must be > 0."))

/-- Setter for overrelaxation: None stores d, elif guards 0 <= value <= 2;
it stores under _overrelaxation, a name __str__ never reads. -/
def set_overrelaxation (s : VGKState) (relaxation : PyVal) : VGKState × Option PyErr :=
  if relaxation = PyVal.none then
    ({ s with _overrelaxation := some (PyVal.str "d") }, Option.none)
  else
    match pyChainLE (PyVal.int 0) relaxation (PyVal.int 2) with
    | Except.error e => (s, some e)
    | Except.ok true =>
      ({ s with _change_defaults := some (PyVal.bool true), _overrelaxation := some relaxation }, Option.none)
    | Except.ok false =>
      (s, some (PyErr.valueError "Over-relaxation parameter must be in [0, 2]."))

/-- Setter for underrelaxation: None stores d, elif guards 0 < value <= 1;
it stores under _underrelaxation, a name __str__ never reads. -/
def set_underrelaxation (s : VGKState) (relaxation : PyVal) : VGKState × Option PyErr :=
  if relaxation = PyVal.none then
    ({ s with _underrelaxation := some (PyVal.str "d") }, Option.none)
  else
    match pyChainLTLE (PyVal.int 0) relaxation (PyVal.int 1) with
    | Except.error e => (s, some e)
    | Except.ok true =>
      ({ s with _change_defaults := some (PyVal.bool true), _underrelaxation := some relaxation }, Option.none)
    | Except.ok false =>
      (s, some (PyErr.valueError "Under-relaxation parameter must be in (0, 1]."))

/-- Setter for coarse_relaxation_factor: None stores d, elif guards
0 < value <= 0.5; it stores under _coarse_relaxation_factor. -/
def set_coarse_relaxation_factor (s : VGKState) (relaxation : PyVal) : VGKState × Option PyErr :=
  if relaxation = PyVal.none then
    ({ s with _coarse_relaxation_factor := some (PyVal.str "d") }, Option.none)
  else
    match pyChainLTLE (PyVal.int 0) relaxation (PyVal.float { mant := 5, exp := 1 }) with
    | Except.error e => (s, some e)
    | Except.ok true =>
      ({ s with _change_defaults := some (PyVal.bool true), _coarse_relaxation_factor := some relaxation }, Option.none)
    | Except.ok false =>
      (s, some (PyErr.valueError ("Coarse-mesh relaxation-factor must be in (0.0, 0.5], but " ++ relaxation.pyStr ++ " given.")))

/-- Setter bound to the name niterations_inviscid_flow in the source: None
stores d under _niterations_coarse_inviscid_flow, elif guards
0 < value <= 20 and isinstance(value, int). -/
def set_niterations_inviscid_flow (s : VGKState) (niterations : PyVal) : VGKState × Option PyErr :=
  if niterations = PyVal.none then
    ({ s with _niterations_coarse_inviscid_flow := some (PyVal.str "d") }, Option.none)
  else
    match pyChainLTLE (PyVal.int 0) niterations (PyVal.int 20) with
    | Except.error e => (s, some e)
    | Except.ok r =>
      if r && niterations.isInstInt then
        ({ s with _change_defaults := some (PyVal.bool true), _niterations_coarse_inviscid_flow := some niterations }, Option.none)
      else
        (s, some (PyErr.valueError ("Number of coarse-mesh inviscid flow iterations must be in \x7b1, 2, ..., 20\x7d, but " ++ niterations.pyStr ++ " given.")))

/-- Setter for niterations_fine_inviscid_flow. The source uses two separate
if statements: on None the sentinel d is stored and then the chained range
comparison still runs on None, so the comparison with 0 raises TypeError. -/
def set_niterations_fine_inviscid_flow (s : VGKState) (niterations : PyVal) : VGKState × Option PyErr :=
  let s := if niterations = PyVal.none then { s with _niterations_fine_inviscid_flow := some (PyVal.str "d") } else s
  match pyChainLTLE (PyVal.int 0) niterations (PyVal.int 20) with
  | Except.error e => (s, some e)
  | Except.ok r =>
    if r && niterations.isInstInt then
      ({ s with _change_defaults := some (PyVal.bool true), _niterations_fine_inviscid_flow := some niterations }, Option.none)
    else
      (s, some (PyErr.valueError ("Number of fine-mesh inviscid flow iterations must be in \x7b1, 2, ..., 20\x7d, but " ++ niterations.pyStr ++ " given.")))

/-- Setter for fine_relaxation_factor: None stores d, elif guards
0 < value <= 0.5; it stores under _fine_relaxation_factor. -/
def set_fine_relaxation_factor (s : VGKState) (relaxation : PyVal) : VGKState × Option PyErr :=
  if relaxation = PyVal.none then
    ({ s with _fine_relaxation_factor := some (PyVal.str "d") }, Option.none)
  else
    match pyChainLTLE (PyVal.int 0) relaxation (PyVal.float { mant := 5, exp := 1 }) with
    | Except.error e => (s, some e)
    | Except.ok true =>
      ({ s with _change_defaults := some (PyVal.bool true), _fine_relaxation_factor := some relaxation }, Option.none)
    | Except.ok false =>
      (s, some (PyErr.valueError "Fine-mesh relaxation factor must be in (0.0, 0.5]."))

/-- Setter for dd21. The source uses two separate if statements: on None
the sentinel d is stored and then the chained range comparison still runs
on None, so the comparison with 0 raises TypeError. -/
def set_dd21 (s : VGKState) (increment : PyVal) : VGKState × Option PyErr :=
  let s := if increment = PyVal.none then { s with _dd21 := some (PyVal.str "d") } else s
  match pyChainLE (PyVal.int 0) increment (PyVal.float { mant := 1, exp := 2 }) with
  | Except.error e => (s, some e)
  | Except.ok true =>
    ({ s with _change_defaults := some (PyVal.bool true), _dd21 := some increment }, Option.none)
  | Except.ok false =>
    (s, some (PyErr.valueError ("Increment in non-dimensional momentum thickness at XTU must be in [0.00, 0.01], but " ++ increment.pyStr ++ " given.")))

/-- Setter for dd22. The first statement of the source body is the test
comparing the undefined name dd22 with None (the parameter is named
increment), so every call raises NameError before anything else runs; the
rest of the body is unreachable. -/
def set_dd22 (s : VGKState) (increment : PyVal) : VGKState × Option PyErr :=
  (s, some (PyErr.nameError "dd22"))

/-- Setter for artificial_viscosity: None stores d, elif guards
0 <= value <= 1. -/
def set_artificial_viscosity (s : VGKState) (viscosity : PyVal) : VGKState × Option PyErr :=
  if viscosity = PyVal.none then
    ({ s with _artificial_viscosity := some (PyVal.str "d") }, Option.none)
  else
    match pyChainLE (PyVal.int 0) viscosity (PyVal.int 1) with
    | Except.error e => (s, some e)
    | Except.ok true =>
      ({ s with _change_defaults := some (PyVal.bool true), _artificial_viscosity := some viscosity }, Option.none)
    | Except.ok false =>
      (s, some (PyErr.valueError ("Artificial viscosity parameter must be in [0, 1], but " ++ viscosity.pyStr ++ " given.")))

/-- Setter for partially_conservative. The source uses two separate if
statements: on None the sentinel d is stored and then the chained range
comparison still runs on None, so the comparison with 0 raises TypeError. -/
def set_partially_conservative (s : VGKState) (value : PyVal) : VGKState × Option PyErr :=
  let s := if value = PyVal.none then { s with _partially_conservative := some (PyVal.str "d") } else s
  match pyChainLE (PyVal.int 0) value (PyVal.int 1) with
  | Except.error e => (s, some e)
  | Except.ok true =>
    ({ s with _change_defaults := some (PyVal.bool true), _partially_conservative := some value }, Option.none)
  | Except.ok false =>
    (s, some (PyErr.valueError ("Partially-conservative parameter is not in the range [0, 1], but " ++ value.pyStr ++ " given.")))

/-- Keyword arguments of VGKConfiguration.__init__ with the kwargs.get
defaults of the source. -/
structure InitKwargs where
  title : PyVal := PyVal.str ""
  continuation : PyVal := PyVal.none
  output_tos : PyVal := PyVal.str "no"
  output_griddata : PyVal := PyVal.str "no"
  output_binarydump : PyVal := PyVal.str "no"
  lift : PyVal := PyVal.none
  partially_conservative : PyVal := PyVal.none
  artificial_viscosity : PyVal := PyVal.none
  dd22 : PyVal := PyVal.none
  dd21 : PyVal := PyVal.none
  coarse_relaxation : PyVal := PyVal.none
  fine_relaxation : PyVal := PyVal.none
  under_relaxation : PyVal := PyVal.none
  over_relaxation : PyVal := PyVal.none
  finemesh_gridlines : PyVal := PyVal.none
  finemesh_iterations : PyVal := PyVal.none
  coarsemesh_iterations : PyVal := PyVal.none
  deriving DecidableEq

/-- Turns a setter call into a raise-propagating step of __init__. -/
def setResult (r : VGKState × Option PyErr) : Except PyErr VGKState :=
  match r.2 with
  | Option.none => Except.ok r.1
  | some e => Except.error e

/-- VGKConfiguration.__init__, assignment for assignment in source order.
The assignments to self.coarse_relaxation, self.fine_relaxation,
self.under_relaxation and self.over_relaxation have no matching setter, so
they create plain attributes of those names. -/
def VGKConfiguration_init (filename viscous datfile mach incidence reynolds xtu xtl : PyVal)
    (kw : InitKwargs) : Except PyErr VGKState := do
  let s : VGKState := {}
  let s ← setResult (set_filename s filename)
  let s := set_viscous s viscous
  let s ← setResult (set_datfile s datfile)
  let s ← setResult (set_mach s mach)
  let s ← setResult (set_incidence s incidence)
  let s ← setResult (set_reynolds s reynolds)
  let s ← setResult (set_xtu s xtu)
  let s ← setResult (set_xtl s xtl)
  let s ← setResult (set_title s kw.title)
  let s ← setResult (set_continuation s kw.continuation)
  let s := set_output_tos s kw.output_tos
  let s := set_output_griddata s kw.output_griddata
  let s := set_output_binarydump s kw.output_binarydump
  let s ← setResult (set_lift s kw.lift)
  let s := { s with _change_defaults := some (PyVal.str "n") }
  let s ← setResult (set_partially_conservative s kw.partially_conservative)
  let s ← setResult (set_artificial_viscosity s kw.artificial_viscosity)
  let s ← setResult (set_dd22 s kw.dd22)
  let s ← setResult (set_dd21 s kw.dd21)
  let s := { s with coarse_relaxation := some kw.coarse_relaxation }
  let s := { s with fine_relaxation := some kw.fine_relaxation }
  let s := { s with under_relaxation := some kw.under_relaxation }
  let s := { s with over_relaxation := some kw.over_relaxation }
  let s ← setResult (set_finemesh_gridlines s kw.finemesh_gridlines)
  let s ← setResult (set_finemesh_iterations s kw.finemesh_iterations)
  let s ← setResult (set_coarsemesh_iterations s kw.coarsemesh_iterations)
  pure s

/-- Continuation line group of __str__: the truthiness of _continuation
selects either the tokens 0 and the dump name, or the tokens 1, _datfile,
_output_tos and _output_griddata; attribute reads happen lazily per branch,
as in the source. -/
def continuationArgs (s : VGKState) : Except PyErr (List PyVal) := do
  let cont ← getattr1 s._continuation "_continuation"
  if cont.truthy then
    pure [PyVal.int 0, cont]
  else do
    let datfile ← getattr1 s._datfile "_datfile"
    let otos ← getattr1 s._output_tos "_output_tos"
    let ogrid ← getattr1 s._output_griddata "_output_griddata"
    pure [PyVal.int 1, datfile, otos, ogrid]

/-- Lift line group of __str__: the truthiness of _lift selects either the
tokens 1 and the lift value, or the single token 0. -/
def liftArgs (s : VGKState) : Except PyErr (List PyVal) := do
  let lift ← getattr1 s._lift "_lift"
  if lift.truthy then
    pure [PyVal.int 1, lift]
  else
    pure [PyVal.int 0]

/-- Advanced defaults line group of __str__: the truthiness of
_change_defaults selects either the token y followed by thirteen attribute
reads in the fixed order of the source, or the single token n. Note that
the source reads _over_relaxation, _under_relaxation, _coarse_relaxation,
_niterations_inviscid_flow and _fine_relaxation, names under which none of
the setters ever stores. -/
def advancedArgs (s : VGKState) : Except PyErr (List PyVal) := do
  let cd ← getattr1 s._change_defaults "_change_defaults"
  if cd.truthy then do
    let a1 ← getattr1 s._finemesh_gridlines "_finemesh_gridlines"
    let a2 ← getattr1 s._coarsemesh_iterations "_coarsemesh_iterations"
    let a3 ← getattr1 s._finemesh_iterations "_finemesh_iterations"
    let a4 ← getattr1 s._over_relaxation "_over_relaxation"
    let a5 ← getattr1 s._under_relaxation "_under_relaxation"
    let a6 ← getattr1 s._coarse_relaxation "_coarse_relaxation"
    let a7 ← getattr1 s._niterations_inviscid_flow "_niterations_inviscid_flow"
    let a8 ← getattr1 s._fine_relaxation "_fine_relaxation"
    let a9 ← getattr1 s._niterations_fine_inviscid_flow "_niterations_fine_inviscid_flow"
    let a10 ← getattr1 s._dd21 "_dd21"
    let a11 ← getattr1 s._dd22 "_dd22"
    let a12 ← getattr1 s._artificial_viscosity "_artificial_viscosity"
    let a13 ← getattr1 s._partially_conservative "_partially_conservative"
    pure [PyVal.str "y", a1, a2, a3, a4, a5, a6, a7, a8, a9, a10, a11, a12, a13]
  else
    pure [PyVal.str "n"]

/-- Args list of VGKConfiguration.__str__, in source evaluation order. -/
def strArgs (s : VGKState) : Except PyErr (List PyVal) := do
  let filename ← getattr1 s._filename "_filename"
  let title ← getattr1 s._title "_title"
  let viscous ← getattr1 s._viscous "_viscous"
  let contBlock ← continuationArgs s
  let mach ← getattr1 s._mach "_mach"
  let incidence ← getattr1 s._incidence "_incidence"
  let liftBlock ← liftArgs s
  let reynolds ← getattr1 s._reynolds "_reynolds"
  let xtu ← getattr1 s._xtu "_xtu"
  let xtl ← getattr1 s._xtl "_xtl"
  let advBlock ← advancedArgs s
  pure ([filename, title, viscous] ++ contBlock ++ [mach, incidence] ++ liftBlock
    ++ [reynolds, xtu, xtl] ++ advBlock)

/-- VGKConfiguration.__str__: join of str() of every arg with newlines plus
one trailing newline. -/
def VGKConfiguration_str (s : VGKState) : Except PyErr String := do
  let args ← strArgs s
  pure (String.intercalate "\n" (args.map PyVal.pyStr) ++ "\n")

/-- VGKConfiguration.encode: the UTF-8 bytes of __str__, modelled as the
same text. -/
def VGKConfiguration_encode (s : VGKState) : Except PyErr String :=
  VGKConfiguration_str s

/-!
Model of src/pyvgk.py. The spawned external process is an oracle: an
invocation outcome is either completion, with a return code and the bytes
of the output and error streams, or expiry of the timeout. The functions
vgk and vgkcon map that outcome to what the wrapper does: the payload
written to the standard input of the process, whether proc.kill() ran, and
either the returned pair or the sys.exit status. Stream bytes are modelled
as the text they decode to.
-/

def VGK_EXE : String := "vgk.exe"

def VGKCON_EXE : String := "vgkcon.exe"

inductive ProcOutcome where
  | completed (returncode : Int) (outs : String) (errs : String)
  | timedOut
  deriving DecidableEq

inductive VgkResult where
  | ret (returncode : Int) (errs : String)
  | exited (status : Int)
  deriving DecidableEq

structure InvokeTrace where
  payload : String
  killed : Bool
  result : VgkResult
  deriving DecidableEq

/-- Whitespace characters stripped by the Python str.strip method. -/
def pyWhitespaceChar (c : Char) : Bool :=
  c == ' ' || c == '\t' || c == '\n' || c == '\r' || c == '\x0b' || c == '\x0c'

/-- Python str.strip(): drops leading and trailing whitespace. -/
def pyStrip (s : String) : String :=
  String.mk (((s.data.dropWhile pyWhitespaceChar).reverse.dropWhile pyWhitespaceChar).reverse)

/-- The vgk wrapper: writes the filename plus a newline to the process; on
completion returns the pair of the return code and the stripped decoded
error stream, on timeout kills the process and exits with status 1. -/
def vgk (filename : String) (outcome : ProcOutcome) : InvokeTrace :=
  let payload := filename ++ "\n"
  match outcome with
  | ProcOutcome.completed rc _ errs =>
    { payload := payload, killed := false, result := VgkResult.ret rc (pyStrip errs) }
  | ProcOutcome.timedOut =>
    { payload := payload, killed := true, result := VgkResult.exited 1 }

/-- The vgkcon wrapper: writes the newline-join of str() of the arguments
plus a trailing newline to the process; completion and timeout are handled
exactly as in vgk. -/
def vgkcon (args : List PyVal) (outcome : ProcOutcome) : InvokeTrace :=
  let payload := String.intercalate "\n" (args.map PyVal.pyStr) ++ "\n"
  match outcome with
  | ProcOutcome.completed rc _ errs =>
    { payload := payload, killed := false, result := VgkResult.ret rc (pyStrip errs) }
  | ProcOutcome.timedOut =>
    { payload := payload, killed := true, result := VgkResult.exited 1 }

/-!
Concrete objects used by the claim theorems.
-/

/-- Call of the module docstring example: VGKConfiguration with filename
example, title Example usage, viscous True, datfile rae2822.dat, mach 0.7,
incidence 2.0, reynolds 6.04e6, xtu 0.05, xtl 0.05 and no further keyword
arguments. -/
def exampleInit : Except PyErr VGKState :=
  VGKConfiguration_init (PyVal.str "example") (PyVal.bool true) (PyVal.str "rae2822.dat")
    (PyVal.float { mant := 7, exp := 1 }) (PyVal.float { mant := 20, exp := 1 })
    (PyVal.float { mant := 6040000, exp := 0 }) (PyVal.float { mant := 5, exp := 2 })
    (PyVal.float { mant := 5, exp := 2 }) { title := PyVal.str "Example usage" }

/-- Object state the docstring example describes: every mandatory and
optional attribute holds its post-validation value and all thirteen
advanced parameters were left unset, so the stored advanced attributes hold
the sentinel d and _change_defaults holds the sentinel string n. The five
underscore attributes that only __str__ mentions are unset, since no setter
ever stores under those names. -/
def allDefaultsState : VGKState :=
  { _filename := some (PyVal.str "example"),
    _title := some (PyVal.str "Example usage"),
    _viscous := some (PyVal.str "1"),
    _datfile := some (PyVal.str "rae2822.dat"),
    _output_tos := some (PyVal.str "yes"),
    _output_griddata := some (PyVal.str "yes"),
    _output_binarydump := some (PyVal.str "yes"),
    _continuation := some (PyVal.bool false),
    _mach := some (PyVal.float { mant := 7, exp := 1 }),
    _incidence := some (PyVal.float { mant := 20, exp := 1 }),
    _lift := some PyVal.none,
    _user_defined_lift := some (PyVal.bool false),
    _reynolds := some (PyVal.float { mant := 6040000, exp := 6 }),
    _xtu := some (PyVal.float { mant := 5, exp := 2 }),
    _xtl := some (PyVal.float { mant := 5, exp := 2 }),
    _change_defaults := some (PyVal.str "n"),
    _finemesh_gridlines := some (PyVal.str "d"),
    _coarsemesh_iterations := some (PyVal.str "d"),
    _finemesh_iterations := some (PyVal.str "d"),
    _dd21 := some (PyVal.str "d"),
    _dd22 := some (PyVal.str "d"),
    _artificial_viscosity := some (PyVal.str "d"),
    _partially_conservative := some (PyVal.str "d") }

/-!
Helper lemmas connecting the computable decimal comparisons with the
rational values they stand for.
-/

theorem PyFloat.le_eq_decide (a b : PyFloat) :
    PyFloat.le a b = decide (a.toRat ≤ b.toRat) := by
  rw [PyFloat.le, decide_eq_decide, PyFloat.toRat, PyFloat.toRat,
    div_le_div_iff₀ (by positivity) (by positivity)]
  constructor <;> intro h <;> exact_mod_cast h

theorem PyFloat.lt_eq_decide (a b : PyFloat) :
    PyFloat.lt a b = decide (a.toRat < b.toRat) := by
  rw [PyFloat.lt, decide_eq_decide, PyFloat.toRat, PyFloat.toRat,
    div_lt_div_iff₀ (by positivity) (by positivity)]
  constructor <;> intro h <;> exact_mod_cast h

theorem PyFloat.divPow10_toRat (d : PyFloat) (k : Nat) :
    (d.divPow10 k).toRat = d.toRat / 10 ^ k := by
  rw [PyFloat.divPow10, PyFloat.toRat, PyFloat.toRat]
  rw [pow_add, div_div]

theorem toRat_intFloat (n : Int) :
    PyFloat.toRat { mant := n, exp := 0 } = (n : ℚ) := by
  simp [PyFloat.toRat]

/-- Claim C1. The claim states that a Configuration with all thirteen
advanced parameters unset serializes a single n line for the advanced
block, and that setting one advanced parameter flips the block to y plus
the thirteen parameters. In the code the sentinel stored in
_change_defaults is the string n, which is truthy, so __str__ always takes
the y branch; there it reads _over_relaxation, a name no setter ever stores
under, so serialization raises AttributeError instead of emitting the n
line, and does the same after finemesh_gridlines is set to 120. -/
theorem C1_advanced_defaults_block :
    PyVal.truthy (PyVal.str "n") = true ∧
    advancedArgs allDefaultsState = Except.error (PyErr.attributeError "_over_relaxation") ∧
    VGKConfiguration_str allDefaultsState = Except.error (PyErr.attributeError "_over_relaxation") ∧
    advancedArgs (set_finemesh_gridlines allDefaultsState (PyVal.int 120)).1 =
      Except.error (PyErr.attributeError "_over_relaxation") :=
  ⟨rfl, rfl, rfl, rfl⟩

/-- Claim C2, counterexample. The concrete scenario of the claim never
produces thirteen lines ending in n: the constructor call itself raises
TypeError, because the default partially_conservative value None reaches
the range comparison with 0 inside its setter; moreover the stored reynolds
value renders as the token 6.04, not 0.0604. -/
theorem C2_example_scenario_fails :
    exampleInit = Except.error PyErr.typeError ∧
    PyVal.pyStr (PyVal.float (PyFloat.divPow10 { mant := 6040000, exp := 0 } 6)) = "6.04" :=
  ⟨rfl, rfl⟩

/-- Claim C2, amended. Constructing the documented example raises TypeError
in the partially_conservative setter, so no serialization is produced; the
reynolds assignment itself succeeds, stores the input divided by one
million, and that value serializes as the token 6.04 rather than 0.0604. -/
theorem C2_example_scenario_amended :
    exampleInit = Except.error PyErr.typeError ∧
    set_reynolds {} (PyVal.float { mant := 6040000, exp := 0 }) =
      ({ _reynolds := some (PyVal.float { mant := 6040000, exp := 6 }) }, Option.none) ∧
    PyVal.pyStr (PyVal.float { mant := 6040000, exp := 6 }) = "6.04" ∧
    PyVal.pyStr (PyVal.float { mant := 6040000, exp := 6 }) ≠ "0.0604" :=
  ⟨rfl, rfl, rfl, by decide⟩

/-- Claim C3. Assigning None to dd21, niterations_fine_inviscid_flow or
partially_conservative stores the sentinel d but then still runs the range
comparison on None and raises TypeError; assigning None to dd22 raises
NameError on the undefined name dd22 without storing anything. By contrast
a setter written with elif, such as artificial_viscosity, accepts None
silently: the claim describes the elif behaviour, which these four setters
do not have. -/
theorem C3_none_assignment_raises :
    set_dd21 {} PyVal.none = ({ _dd21 := some (PyVal.str "d") }, some PyErr.typeError) ∧
    set_dd22 {} PyVal.none = ({}, some (PyErr.nameError "dd22")) ∧
    set_niterations_fine_inviscid_flow {} PyVal.none =
      ({ _niterations_fine_inviscid_flow := some (PyVal.str "d") }, some PyErr.typeError) ∧
    set_partially_conservative {} PyVal.none =
      ({ _partially_conservative := some (PyVal.str "d") }, some PyErr.typeError) ∧
    set_artificial_viscosity {} PyVal.none =
      ({ _artificial_viscosity := some (PyVal.str "d") }, Option.none) :=
  ⟨rfl, rfl, rfl, rfl, rfl⟩

/-- Claim C4. With continuation None the stored flag is the Python False
and serialization emits the fresh-run group 1, datfile, output_tos token,
output_griddata token, as the claim states. But the string dump1 is
rejected by the continuation validator: the quantifier of the pattern
contains a space, so Python matches the six quantifier characters
literally, dump1 does not match, and the setter raises ValueError instead
of accepting it. -/
theorem C4_continuation_branches :
    set_continuation {} PyVal.none = ({ _continuation := some (PyVal.bool false) }, Option.none) ∧
    continuationArgs allDefaultsState =
      Except.ok [PyVal.int 1, PyVal.str "rae2822.dat", PyVal.str "yes", PyVal.str "yes"] ∧
    reMatchContinuation "dump1" = false ∧
    set_continuation {} (PyVal.str "dump1") =
      ({}, some (PyErr.valueError "Binary dump must not be longer than 8 characters and must only contain alphanumeric characters, -, and _, but dump1 given.")) :=
  ⟨rfl, rfl, rfl, rfl⟩

/-- Claim C5, counterexample. Assigning lift 0.0 succeeds and sets the user
defined lift indicator, but serialization emits the single token 0 for the
lift line, not the two-token line the claim requires for every value in
[0, 1] including 0: the line is selected by the truthiness of the stored
value and the float 0.0 is falsy. -/
theorem C5_lift_zero_one_token :
    set_lift {} (PyVal.float { mant := 0, exp := 0 }) =
      ({ _user_defined_lift := some (PyVal.bool true),
         _lift := some (PyVal.float { mant := 0, exp := 0 }) }, Option.none) ∧
    liftArgs { _lift := some (PyVal.float { mant := 0, exp := 0 }) } = Except.ok [PyVal.int 0] :=
  ⟨rfl, rfl⟩

/-- Claim C5, amended. For every lift value in [0, 1] the assignment
succeeds and sets the user defined lift indicator; serialization emits the
two-token line 1, lift exactly when the stored value is truthy, that is
nonzero, and emits the single token 0 for lift 0 as well as for lift
None. -/
theorem C5_lift_amended (d : PyFloat) (s : VGKState)
    (h0 : 0 ≤ d.toRat) (h1 : d.toRat ≤ 1) :
    set_lift s (PyVal.float d) =
      ({ s with _user_defined_lift := some (PyVal.bool true), _lift := some (PyVal.float d) }, Option.none) ∧
    liftArgs { s with _lift := some (PyVal.float d) } =
      Except.ok (if d.mant = 0 then [PyVal.int 0] else [PyVal.int 1, PyVal.float d]) ∧
    liftArgs { s with _lift := some PyVal.none } = Except.ok [PyVal.int 0] := by
  have hchain : pyChainLE (PyVal.int 0) (PyVal.float d) (PyVal.int 1) = Except.ok true := by
    show (if PyFloat.le { mant := 0, exp := 0 } d then
        pyLE (PyVal.float d) (PyVal.int 1) else pure false) = Except.ok true
    rw [PyFloat.le_eq_decide, toRat_intFloat]
    show (if decide (((0 : Int) : ℚ) ≤ d.toRat) then
        Except.ok (PyFloat.le d { mant := 1, exp := 0 }) else pure false) = Except.ok true
    rw [PyFloat.le_eq_decide, toRat_intFloat]
    push_cast
    simp [h0, h1]
  refine ⟨?_, ?_, ?_⟩
  · simp [set_lift, hchain]
  · show (if PyVal.truthy (PyVal.float d) then Except.ok [PyVal.int 1, PyVal.float d]
        else Except.ok ([PyVal.int 0] : List PyVal)) =
      Except.ok (if d.mant = 0 then [PyVal.int 0] else [PyVal.int 1, PyVal.float d])
    by_cases hm : d.mant = 0 <;> simp [PyVal.truthy, hm]
  · rfl

/-- Claim C5, witness of the amended theorem at lift 0.5 on the empty
state. -/
theorem C5_lift_amended_witness :
    (0 : ℚ) ≤ PyFloat.toRat { mant := 5, exp := 1 } ∧
    PyFloat.toRat { mant := 5, exp := 1 } ≤ 1 ∧
    set_lift {} (PyVal.float { mant := 5, exp := 1 }) =
      ({ _user_defined_lift := some (PyVal.bool true), _lift := some (PyVal.float { mant := 5, exp := 1 }) }, Option.none) ∧
    liftArgs { _lift := some (PyVal.float { mant := 5, exp := 1 }) } =
      Except.ok [PyVal.int 1, PyVal.float { mant := 5, exp := 1 }] := by
  have h0 : (0 : ℚ) ≤ PyFloat.toRat { mant := 5, exp := 1 } := by
    norm_num [PyFloat.toRat]
  have h1 : PyFloat.toRat { mant := 5, exp := 1 } ≤ 1 := by
    norm_num [PyFloat.toRat]
  have h := C5_lift_amended { mant := 5, exp := 1 } {} h0 h1
  refine ⟨h0, h1, h.1, ?_⟩
  have h2 := h.2.1
  rw [if_neg (by norm_num)] at h2
  exact h2

/-- Claim C6. For every reynolds input of value at least 1e5 the assignment
succeeds and stores the input divided by one million, for every smaller
input the assignment raises ValueError, and the stored value of the input
6.04e6 serializes through the str rendering of __str__ as the token
6.04. -/
theorem C6_reynolds_normalization (d : PyFloat) (s : VGKState) :
    (100000 ≤ d.toRat →
      set_reynolds s (PyVal.float d) =
        ({ s with _reynolds := some (PyVal.float (d.divPow10 6)) }, Option.none) ∧
      (d.divPow10 6).toRat = d.toRat / 1000000) ∧
    (d.toRat < 100000 →
      set_reynolds s (PyVal.float d) =
        (s, some (PyErr.valueError ("Reynold\x27s number must be greater than 1e5, but " ++ pyFloatRepr d ++ " given.")))) ∧
    PyVal.pyStr (PyVal.float (PyFloat.divPow10 { mant := 6040000, exp := 0 } 6)) = "6.04" := by
  have hle : PyFloat.le { mant := 100000, exp := 0 } d = decide (100000 ≤ d.toRat) := by
    rw [PyFloat.le_eq_decide, toRat_intFloat]
    push_cast
    rfl
  refine ⟨?_, ?_, rfl⟩
  · intro h
    constructor
    · simp [set_reynolds, pyLE, pyNum, hle, h]
    · rw [PyFloat.divPow10_toRat]
      norm_num
  · intro h
    have h' : ¬ (100000 ≤ d.toRat) := not_le.mpr h
    simp [set_reynolds, pyLE, pyNum, hle, h', PyVal.pyStr]

/-- Claim C6, witness at reynolds 6.04e6 on the empty state. -/
theorem C6_reynolds_witness :
    (100000 : ℚ) ≤ PyFloat.toRat { mant := 6040000, exp := 0 } ∧
    set_reynolds {} (PyVal.float { mant := 6040000, exp := 0 }) =
      ({ _reynolds := some (PyVal.float { mant := 6040000, exp := 6 }) }, Option.none) ∧
    (PyFloat.divPow10 { mant := 6040000, exp := 0 } 6).toRat =
      PyFloat.toRat { mant := 6040000, exp := 0 } / 1000000 ∧
    PyVal.pyStr (PyVal.float { mant := 6040000, exp := 6 }) = "6.04" := by
  have hge : (100000 : ℚ) ≤ PyFloat.toRat { mant := 6040000, exp := 0 } := by
    norm_num [PyFloat.toRat]
  have h := C6_reynolds_normalization { mant := 6040000, exp := 0 } {}
  exact ⟨hge, (h.1 hge).1, (h.1 hge).2, h.2.2⟩

/-- Claim C7. The listed out-of-range assignments mach 0.04, mach 0.96,
incidence 21, a nine character filename and a datfile without the .dat
suffix all raise ValueError and leave every attribute unchanged, as the
claim states; but the claim fails in general: an out-of-range dd22
assignment such as 0.5 raises NameError (the setter body reads the
undefined name dd22), not an InvalidArgument-kind error. -/
theorem C7_invalid_values_rejected :
    set_mach allDefaultsState (PyVal.float { mant := 4, exp := 2 }) =
      (allDefaultsState, some (PyErr.valueError "Mach number must be in the range [0.05, 0.95], but 0.04 given.")) ∧
    set_mach allDefaultsState (PyVal.float { mant := 96, exp := 2 }) =
      (allDefaultsState, some (PyErr.valueError "Mach number must be in the range [0.05, 0.95], but 0.96 given.")) ∧
    set_incidence allDefaultsState (PyVal.int 21) =
      (allDefaultsState, some (PyErr.valueError "Angle of incidence must be in [-20, 20], but 21 given.")) ∧
    set_filename allDefaultsState (PyVal.str "abcdefghi") =
      (allDefaultsState, some (PyErr.valueError "Filename must only contain alphanumeric characters and not be longer than 8 characters, but abcdefghi given.")) ∧
    set_datfile allDefaultsState (PyVal.str "rae2822") =
      (allDefaultsState, some (PyErr.valueError "Design filename must contain the `.dat` extension and not be longer than 8 characters (before the dot), but rae2822 given.")) ∧
    set_dd22 allDefaultsState (PyVal.float { mant := 5, exp := 1 }) =
      (allDefaultsState, some (PyErr.nameError "dd22")) :=
  ⟨rfl, rfl, rfl, rfl, rfl, rfl⟩

/-- Claim C8. On a timed-out invocation both wrappers kill the spawned
process and exit the host process with the nonzero status 1; the result is
the exit, never a returned code and error-text pair. -/
theorem C8_timeout_kills_and_exits (filename : String) (args : List PyVal) :
    vgk filename ProcOutcome.timedOut =
      { payload := filename ++ "\n", killed := true, result := VgkResult.exited 1 } ∧
    vgkcon args ProcOutcome.timedOut =
      { payload := String.intercalate "\n" (args.map PyVal.pyStr) ++ "\n", killed := true,
        result := VgkResult.exited 1 } ∧
    (∀ rc errs, VgkResult.exited 1 ≠ VgkResult.ret rc errs) ∧
    (1 : Int) ≠ 0 := by
  refine ⟨rfl, rfl, ?_, by decide⟩
  intro rc errs h
  exact VgkResult.noConfusion h

/-- Claim C8, witness at the filename example. -/
theorem C8_timeout_witness :
    vgk "example" ProcOutcome.timedOut =
      { payload := "example" ++ "\n", killed := true, result := VgkResult.exited 1 } :=
  (C8_timeout_kills_and_exits "example" []).1

/-- Claim C9. On a completed invocation both wrappers return the pair of
the process return code and the whitespace-stripped decoded error stream,
and the stripped text of an empty error stream is the empty string. -/
theorem C9_completion_returns_pair (filename : String) (args : List PyVal)
    (rc : Int) (outs errs : String) :
    vgk filename (ProcOutcome.completed rc outs errs) =
      { payload := filename ++ "\n", killed := false,
        result := VgkResult.ret rc (pyStrip errs) } ∧
    vgkcon args (ProcOutcome.completed rc outs errs) =
      { payload := String.intercalate "\n" (args.map PyVal.pyStr) ++ "\n", killed := false,
        result := VgkResult.ret rc (pyStrip errs) } ∧
    pyStrip "" = "" :=
  ⟨rfl, rfl, rfl⟩

/-- Claim C9, witness on an empty and on a nonempty error stream. -/
theorem C9_completion_witness :
    (vgk "example" (ProcOutcome.completed 0 "" "")).result = VgkResult.ret 0 "" ∧
    (vgk "example" (ProcOutcome.completed 2 "" " some error \n")).result =
      VgkResult.ret 2 "some error" := by
  have h1 := C9_completion_returns_pair "example" [] 0 "" ""
  have h2 := C9_completion_returns_pair "example" [] 2 "" " some error \n"
  refine ⟨?_, ?_⟩
  · rw [h1.1]
    rfl
  · rw [h2.1]
    rfl

/-- Claim C10. The kwargs default for the three output flags is the string
no, which is truthy, so the constructor-invoked setters store the token yes
for all three flags, and the fresh-run line group of a Configuration that
never mentioned the flags emits yes for output_tos and output_griddata. -/
theorem C10_output_defaults_become_yes :
    (({} : InitKwargs).output_tos = PyVal.str "no") ∧
    (({} : InitKwargs).output_griddata = PyVal.str "no") ∧
    (({} : InitKwargs).output_binarydump = PyVal.str "no") ∧
    PyVal.truthy (PyVal.str "no") = true ∧
    (set_output_tos {} (PyVal.str "no"))._output_tos = some (PyVal.str "yes") ∧
    (set_output_griddata {} (PyVal.str "no"))._output_griddata = some (PyVal.str "yes") ∧
    (set_output_binarydump {} (PyVal.str "no"))._output_binarydump = some (PyVal.str "yes") ∧
    continuationArgs
      (set_output_griddata
        (set_output_tos
          { _continuation := some (PyVal.bool false), _datfile := some (PyVal.str "rae2822.dat") }
          (PyVal.str "no"))
        (PyVal.str "no")) =
      Except.ok [PyVal.int 1, PyVal.str "rae2822.dat", PyVal.str "yes", PyVal.str "yes"] :=
  ⟨rfl, rfl, rfl, rfl, rfl, rfl, rfl, rfl⟩
